import Mathlib

/-!
Verification of the booking engine of `university-booking-project`.

The Go source keeps tables and reservations in a relational store; the SQL
queries are shallowly embedded here as pure functions over in-memory lists.
Dates are triples (year, month, day) compared lexicographically, exactly as
SQL `date` values compare; wall-clock times stay the strings the Go code
stores (`"HH:MM"`).  HTTP handlers become functions from the store state and
the decoded request to an outcome record that carries the status code, the
top-level error message, the field-detail map (as an association list in
source order), the new store state, and the ordered list of store-write /
cache-invalidation events the handler issued.
-/

namespace Booking

/-- Calendar date, the embedding of a SQL `date` value. -/
structure Date where
  year : Nat
  month : Nat
  day : Nat
deriving DecidableEq, Repr

/-- Gregorian leap-year rule (as Postgres implements for `date` arithmetic). -/
def isLeapYear (y : Nat) : Bool :=
  (y % 4 == 0 && y % 100 != 0) || y % 400 == 0

/-- Number of days in a calendar month. -/
def daysInMonth (y m : Nat) : Nat :=
  if m == 2 then (if isLeapYear y then 29 else 28)
  else if m == 4 || m == 6 || m == 9 || m == 11 then 30
  else 31

/-- SQL `date` comparison `a <= b` (lexicographic on year, month, day). -/
def dateLE (a b : Date) : Bool :=
  if a.year ≠ b.year then decide (a.year < b.year)
  else if a.month ≠ b.month then decide (a.month < b.month)
  else decide (a.day ≤ b.day)

/-- SQL `date` comparison `a < b` (lexicographic on year, month, day). -/
def dateLT (a b : Date) : Bool :=
  if a.year ≠ b.year then decide (a.year < b.year)
  else if a.month ≠ b.month then decide (a.month < b.month)
  else decide (a.day < b.day)

/-- Postgres `d + INTERVAL '1 month'`: increment the month (rolling into the
next year after December) and clamp the day to the target month's length. -/
def addMonth (d : Date) : Date :=
  let y := if d.month == 12 then d.year + 1 else d.year
  let m := if d.month == 12 then 1 else d.month + 1
  { year := y, month := m, day := min d.day (daysInMonth y m) }

/-- A row of the `reservations` table.  UUIDs are modelled as naturals,
`special_requests` is the nullable text column, `status` is the raw string
the CHECK constraint restricts to pending/confirmed/cancelled/completed. -/
structure Reservation where
  id : Nat
  userId : Nat
  guestName : String
  guestPhone : String
  guestEmail : String
  date : Date
  time : String
  guests : Int
  tableNumber : String
  status : String
  specialRequests : Option String
deriving DecidableEq, Repr

/-- A row of the `tables` table. -/
structure Table where
  id : Nat
  number : String
  capacity : Int
  isAvailable : Bool
  location : String
deriving DecidableEq, Repr

/-- `status IN ('pending', 'confirmed')` — the predicate every conflict query
in the source uses. -/
def isActiveStatus (s : String) : Bool :=
  s == "pending" || s == "confirmed"

/-- `ReservationQ.CheckTableAvailability`: count the reservations matching the
exact table number, date and time whose status is pending or confirmed, and
report the table available when that count is zero. -/
def checkTableAvailability (db : List Reservation) (tableNumber : String)
    (date : Date) (time : String) : Bool :=
  (db.filter (fun r =>
    r.tableNumber == tableNumber && r.date == date && r.time == time &&
      (r.status == "pending" || r.status == "confirmed"))).length == 0

/-- `ReservationQ.GetByID`: the row with the given id, or the store's
"reservation not found" error (the first matching row, as a primary key scan). -/
def getByID (db : List Reservation) (id : Nat) : Except String Reservation :=
  match db.find? (fun r => r.id == id) with
  | some r => .ok r
  | none => .error "reservation not found"

/-- `ReservationQ.UpdateStatus`: set `status` on the row with the given id;
"reservation not found" when no row was affected.  No check of the current
status is performed. -/
def updateStatusQ (db : List Reservation) (id : Nat) (status : String) :
    Except String (List Reservation) :=
  if db.any (fun r => r.id == id) then
    .ok (db.map (fun r => if r.id == id then { r with status := status } else r))
  else
    .error "reservation not found"

/-- `ReservationQ.Delete`: remove the row with the given id; "reservation not
found" when no row was affected. -/
def deleteQ (db : List Reservation) (id : Nat) : Except String (List Reservation) :=
  if db.any (fun r => r.id == id) then
    .ok (db.filter (fun r => !(r.id == id)))
  else
    .error "reservation not found"

/-- Numeric value of an ASCII digit. -/
def digitVal (c : Char) : Nat := c.toNat - 48

/-- Go `time.Parse("2006-01-02", s)`: exactly `YYYY-MM-DD` with two-digit
month and day, month in 1..12 and day within the month's length (out-of-range
components make `time.Parse` fail). -/
def parseDate (s : String) : Option Date :=
  match s.data with
  | [y1, y2, y3, y4, '-', m1, m2, '-', d1, d2] =>
    if [y1, y2, y3, y4, m1, m2, d1, d2].all Char.isDigit then
      let y := 1000 * digitVal y1 + 100 * digitVal y2 + 10 * digitVal y3 + digitVal y4
      let m := 10 * digitVal m1 + digitVal m2
      let d := 10 * digitVal d1 + digitVal d2
      if 1 ≤ m && m ≤ 12 && 1 ≤ d && d ≤ daysInMonth y m then
        some { year := y, month := m, day := d }
      else none
    else none
  | _ => none

/-- Go `time.Parse("15:04", s)`: a one- or two-digit hour (the `15` verb is
not zero-padded), a literal colon, a two-digit minute; hour 0..23, minute
0..59. -/
def parseTimeHM (s : String) : Option (Nat × Nat) :=
  match s.data with
  | [h1, h2, ':', n1, n2] =>
    if [h1, h2, n1, n2].all Char.isDigit then
      let h := 10 * digitVal h1 + digitVal h2
      let n := 10 * digitVal n1 + digitVal n2
      if h ≤ 23 && n ≤ 59 then some (h, n) else none
    else none
  | [h1, ':', n1, n2] =>
    if [h1, n1, n2].all Char.isDigit then
      let h := digitVal h1
      let n := 10 * digitVal n1 + digitVal n2
      if h ≤ 23 && n ≤ 59 then some (h, n) else none
    else none
  | _ => none

/-- Go `strings.TrimSpace`: drop leading and trailing whitespace. -/
def trimSpace (s : String) : String :=
  ⟨((s.data.dropWhile Char.isWhitespace).reverse.dropWhile Char.isWhitespace).reverse⟩

/-- Go `strings.Split` on a one-character separator. -/
def splitChar (c : Char) : List Char → List (List Char)
  | [] => [[]]
  | x :: xs =>
    match splitChar c xs, x == c with
    | r, true => [] :: r
    | [], false => [[x]]
    | h :: t, false => (x :: h) :: t

/-- `isValidEmail` from the server package: non-empty, splitting on `@` yields
exactly two non-empty parts, and the domain part contains a dot. -/
def isValidEmail (email : String) : Bool :=
  if email == "" then false
  else
    match splitChar '@' email.data with
    | [namePart, domainPart] =>
      !namePart.isEmpty && !domainPart.isEmpty && domainPart.contains '.'
    | _ => false

/-- The `WHERE date >= $1::date AND date < ($1::date + INTERVAL '1 month')`
clause shared by the three queries of `GetDetailedMonthlyStats`. -/
def inMonthRange (start d : Date) : Bool :=
  dateLE start d && dateLT d (addMonth start)

/-- Distinct keys of a grouped query, first occurrence first (`seen` carries
the keys already emitted). -/
def dedupAux : List String → List String → List String
  | _, [] => []
  | seen, k :: ks =>
    if seen.contains k then dedupAux seen ks
    else k :: dedupAux (k :: seen) ks

/-- `GROUP BY key` with `COUNT(*)`: one `(key, count)` pair per distinct key. -/
def groupCounts (keys : List String) : List (String × Nat) :=
  (dedupAux [] keys).map (fun k => (k, keys.count k))

/-- Insert into a count-descending list (used to realize `ORDER BY count
DESC`; ties keep their relative order, which SQL leaves unspecified). -/
def insertByCount (p : String × Nat) : List (String × Nat) → List (String × Nat)
  | [] => [p]
  | q :: qs => if q.2 < p.2 then p :: q :: qs else q :: insertByCount p qs

/-- `ORDER BY count DESC` as an insertion sort. -/
def sortByCountDesc (l : List (String × Nat)) : List (String × Nat) :=
  l.foldr insertByCount []

/-- The popular-tables query of `GetDetailedMonthlyStats`: completed
reservations in the month, grouped by table number, count-descending,
`LIMIT 10`. -/
def popularTables (res : List Reservation) (start : Date) : List (String × Nat) :=
  (sortByCountDesc (groupCounts
    ((res.filter (fun r => inMonthRange start r.date && r.status == "completed")).map
      (fun r => r.tableNumber)))).take 10

/-- The peak-hours query of `GetDetailedMonthlyStats`: completed reservations
in the month, grouped by the stored `HH:MM` time value, count-descending,
`LIMIT 10`. -/
def peakHours (res : List Reservation) (start : Date) : List (String × Nat) :=
  (sortByCountDesc (groupCounts
    ((res.filter (fun r => inMonthRange start r.date && r.status == "completed")).map
      (fun r => r.time)))).take 10

/-- The record `GetDetailedMonthlyStats` assembles (revenue is the fixed
50-per-completed-reservation proxy, kept in whole units). -/
structure DetailedMonthlyStats where
  month : String
  totalReservations : Nat
  completedReservations : Nat
  cancelledReservations : Nat
  revenue : Nat
  popularTables : List (String × Nat)
  peakHours : List (String × Nat)
deriving DecidableEq, Repr

/-- The `YYYY-MM` format check both the store and the handler perform:
length 7 and a dash at index 4. -/
def monthFormatOk (month : String) : Bool :=
  month.length == 7 && month.data.getD 4 ' ' == '-'

/-- `ReportsQ.GetDetailedMonthlyStats`: validate the month format, build the
month start date `month ++ "-01"` (a failing `::date` cast surfaces as a
store error), aggregate the reservations in `[start, start + 1 month)`; a
grouped query over an empty row set returns no row, which the store maps to
the error "statistics for this month not found". -/
def getDetailedMonthlyStats (res : List Reservation) (month : String) :
    Except String DetailedMonthlyStats :=
  if !(monthFormatOk month) then
    .error "invalid month format (expected YYYY-MM)"
  else
    match parseDate (month ++ "-01") with
    | none => .error "invalid input syntax for type date"
    | some start =>
      let rows := res.filter (fun r => inMonthRange start r.date)
      if rows.isEmpty then .error "statistics for this month not found"
      else
        .ok { month := month
            , totalReservations := rows.length
            , completedReservations := (rows.filter (fun r => r.status == "completed")).length
            , cancelledReservations := (rows.filter (fun r => r.status == "cancelled")).length
            , revenue := 50 * (rows.filter (fun r => r.status == "completed")).length
            , popularTables := popularTables res start
            , peakHours := peakHours res start }

/-- Outcome of the monthly-report handler. -/
structure ReportOutcome where
  status : Nat
  errMsg : Option String
  body : Option DetailedMonthlyStats
deriving DecidableEq, Repr

/-- `handleGetMonthlyReport`: reject a malformed month with 400; any error
from the store — the not-found error included — becomes 500 "Internal server
error".  (The Go handler also holds a `stats == nil` 404 branch, but the
store never yields a nil result together with a nil error, so that branch is
unreachable and has no image in this embedding.) -/
def handleGetMonthlyReport (res : List Reservation) (month : String) : ReportOutcome :=
  if !(monthFormatOk month) then
    { status := 400, errMsg := some "Invalid month format (expected YYYY-MM)", body := none }
  else
    match getDetailedMonthlyStats res month with
    | .error _ => { status := 500, errMsg := some "Internal server error", body := none }
    | .ok stats => { status := 200, errMsg := none, body := some stats }

/-- The optional query filters of `TableQ.GetAvailable`. -/
structure TableAvailabilityFilters where
  date : Option Date
  time : Option String
  guests : Option Int
deriving Repr

/-- `TableQ.GetAvailable`: administratively available tables, restricted by
minimum capacity when `guests` is set; with both date and time set a table is
dropped when an active reservation occupies that exact slot, with only a date
set it is dropped when any active reservation exists on that date; a time
without a date adds no reservation condition (the Go `if date != nil && time
!= nil / else if date != nil` chain).  Row order follows the input list. -/
def getAvailable (tables : List Table) (res : List Reservation)
    (f : TableAvailabilityFilters) : List Table :=
  tables.filter (fun t =>
    t.isAvailable &&
    (match f.guests with
     | some g => decide (g ≤ t.capacity)
     | none => true) &&
    (match f.date, f.time with
     | some d, some ti =>
       !(res.any (fun r =>
         r.tableNumber == t.number && r.date == d && r.time == ti && isActiveStatus r.status))
     | some d, none =>
       !(res.any (fun r =>
         r.tableNumber == t.number && r.date == d && isActiveStatus r.status))
     | _, _ => true))

/-- An observable side effect of a mutating handler, in issue order: the
authoritative store write (with its outcome) and each cache-invalidation
call (with the outcome of the cache layer, which the handlers only log). -/
inductive Event where
  | storeWrite (ok : Bool)
  | cacheInvalidate (key : String) (ok : Bool)
deriving DecidableEq, Repr

/-- Outcome of a reservation-mutating handler: HTTP status, top-level error
message, field-detail list, resulting store state, emitted events.  Store
reads are modelled as always succeeding; `storeOk` below models the outcome
of the authoritative write. -/
structure HandlerOutcome where
  status : Nat
  errMsg : Option String
  details : List (String × String)
  db : List Reservation
  events : List Event
deriving DecidableEq, Repr

/-- Decoded body of `POST /reservations`. -/
structure CreateReservationRequest where
  guestName : String
  guestPhone : String
  guestEmail : String
  date : String
  time : String
  guests : Int
  tableNumber : String
  specialRequests : Option String
deriving Repr

/-- The validation block of `handleCreateReservation`, collecting the
field-detail entries in source order (the Go map has no order; the list
order here is the order the checks run). -/
def createValidationErrors (req : CreateReservationRequest) : List (String × String) :=
  (if trimSpace req.guestName == "" then [("guestName", "Guest name is required")] else []) ++
  (if trimSpace req.guestPhone == "" then [("guestPhone", "Guest phone is required")] else []) ++
  (if trimSpace req.guestEmail == "" then [("guestEmail", "Guest email is required")]
   else if !(isValidEmail (trimSpace req.guestEmail)) then [("guestEmail", "Invalid email format")]
   else []) ++
  (if req.date == "" then [("date", "Date is required")]
   else if (parseDate req.date).isNone then [("date", "Invalid date format")]
   else []) ++
  (if req.time == "" then [("time", "Time is required")]
   else if (parseTimeHM req.time).isNone then [("time", "Invalid time format")]
   else []) ++
  (if req.guests ≤ 0 then [("guests", "Number of guests must be greater than 0")] else []) ++
  (if trimSpace req.tableNumber == "" then [("tableNumber", "Table number is required")] else [])

/-- The zero `time.Time` of Go prints as date 0001-01-01; `date, _ :=
time.Parse(...)` leaves this value when parsing fails. -/
def zeroDate : Date := { year := 1, month := 1, day := 1 }

/-- `handleCreateReservation` after JSON decoding: validate, check
availability against the authoritative store, insert with status "pending",
then invalidate the owner's reservation-list cache key; a cache error is
logged and ignored. -/
def handleCreateReservation (db : List Reservation) (userId : Nat)
    (req : CreateReservationRequest) (newId : Nat) (storeOk cacheOk : Bool) :
    HandlerOutcome :=
  let ve := createValidationErrors req
  if ve ≠ [] then
    { status := 400, errMsg := some "Validation error", details := ve, db := db, events := [] }
  else
    let date := (parseDate req.date).getD zeroDate
    if !(checkTableAvailability db (trimSpace req.tableNumber) date req.time) then
      { status := 400, errMsg := some "Validation error"
      , details := [("tableNumber", "Table not available at this time")]
      , db := db, events := [] }
    else
      match (if storeOk then (.ok (db ++ [({
          id := newId, userId := userId,
          guestName := trimSpace req.guestName, guestPhone := trimSpace req.guestPhone,
          guestEmail := trimSpace req.guestEmail,
          date := date, time := req.time, guests := req.guests,
          tableNumber := trimSpace req.tableNumber, status := "pending",
          specialRequests := req.specialRequests } : Reservation)])
        : Except String (List Reservation)) else .error "store unreachable") with
      | .error _ =>
        { status := 500, errMsg := some "Internal server error", details := []
        , db := db, events := [.storeWrite false] }
      | .ok db2 =>
        { status := 201, errMsg := none, details := [], db := db2
        , events := [.storeWrite true,
            .cacheInvalidate ("reservations:user:" ++ toString userId) cacheOk] }

/-- The `validStatuses` set of `handleUpdateReservationStatus`. -/
def validStatusCheck (s : String) : Bool :=
  s == "pending" || s == "confirmed" || s == "cancelled" || s == "completed"

/-- `handleUpdateReservationStatus`: load the reservation, accept any of the
four statuses regardless of the current one, write, re-load, invalidate the
reservation's own key and the owner's list key. -/
def handleUpdateReservationStatus (db : List Reservation) (id : Nat)
    (reqStatus : String) (storeOk cacheOk : Bool) : HandlerOutcome :=
  match getByID db id with
  | .error _ =>
    { status := 500, errMsg := some "Internal server error", details := []
    , db := db, events := [] }
  | .ok _ =>
    if !(validStatusCheck reqStatus) then
      { status := 400, errMsg := some "Validation error"
      , details := [("status", "Invalid status. Must be one of: pending, confirmed, cancelled, completed")]
      , db := db, events := [] }
    else
      match (if storeOk then updateStatusQ db id reqStatus else .error "store unreachable") with
      | .error _ =>
        { status := 500, errMsg := some "Internal server error", details := []
        , db := db, events := [.storeWrite false] }
      | .ok db2 =>
        match getByID db2 id with
        | .error _ =>
          { status := 500, errMsg := some "Internal server error", details := []
          , db := db2, events := [.storeWrite true] }
        | .ok r2 =>
          { status := 200, errMsg := none, details := [], db := db2
          , events := [.storeWrite true,
              .cacheInvalidate ("reservation:" ++ toString id) cacheOk,
              .cacheInvalidate ("reservations:user:" ++ toString r2.userId) cacheOk] }

/-- Decoded body of `PATCH /reservations/:id`. -/
structure UpdateReservationRequest where
  guestName : Option String
  guestPhone : Option String
  guestEmail : Option String
  date : Option String
  time : Option String
  guests : Option Int
  tableNumber : Option String
  specialRequests : Option String
deriving Repr

/-- Intermediate state of the field-patching block of
`handleUpdateReservation`. -/
structure PatchState where
  r : Reservation
  hasUpdates : Bool
  errs : List (String × String)
deriving Repr

/-- The field-patching block of `handleUpdateReservation`, run in source
order over the loaded reservation. -/
def applyPatch (r0 : Reservation) (req : UpdateReservationRequest) : PatchState :=
  let s0 : PatchState := { r := r0, hasUpdates := false, errs := [] }
  let s1 := match req.guestName with
    | none => s0
    | some v =>
      let n := trimSpace v
      if n == "" then { s0 with errs := s0.errs ++ [("guestName", "Guest name cannot be empty")] }
      else { s0 with r := { s0.r with guestName := n }, hasUpdates := true }
  let s2 := match req.guestPhone with
    | none => s1
    | some v => { s1 with r := { s1.r with guestPhone := trimSpace v }, hasUpdates := true }
  let s3 := match req.guestEmail with
    | none => s2
    | some v =>
      let e := trimSpace v
      if e == "" then { s2 with errs := s2.errs ++ [("guestEmail", "Guest email cannot be empty")] }
      else if !(isValidEmail e) then { s2 with errs := s2.errs ++ [("guestEmail", "Invalid email format")] }
      else { s2 with r := { s2.r with guestEmail := e }, hasUpdates := true }
  let s4 := match req.date with
    | none => s3
    | some v =>
      match parseDate v with
      | none => { s3 with errs := s3.errs ++ [("date", "Invalid date format")] }
      | some d => { s3 with r := { s3.r with date := d }, hasUpdates := true }
  let s5 := match req.time with
    | none => s4
    | some v =>
      if (parseTimeHM v).isNone then { s4 with errs := s4.errs ++ [("time", "Invalid time format")] }
      else { s4 with r := { s4.r with time := v }, hasUpdates := true }
  let s6 := match req.guests with
    | none => s5
    | some g =>
      if g ≤ 0 then { s5 with errs := s5.errs ++ [("guests", "Number of guests must be greater than 0")] }
      else { s5 with r := { s5.r with guests := g }, hasUpdates := true }
  let s7 := match req.tableNumber with
    | none => s6
    | some v => { s6 with r := { s6.r with tableNumber := trimSpace v }, hasUpdates := true }
  match req.specialRequests with
  | none => s7
  | some v => { s7 with r := { s7.r with specialRequests := some v }, hasUpdates := true }

/-- One row under `ReservationQ.Update`'s dynamic `SET`: only the non-empty
(non-zero) fields of the patched object are written. -/
def applyUpdateRow (x p : Reservation) : Reservation :=
  { x with
    guestName := if p.guestName != "" then p.guestName else x.guestName
    guestPhone := if p.guestPhone != "" then p.guestPhone else x.guestPhone
    guestEmail := if p.guestEmail != "" then p.guestEmail else x.guestEmail
    date := if !(p.date == zeroDate) then p.date else x.date
    time := if p.time != "" then p.time else x.time
    guests := if 0 < p.guests then p.guests else x.guests
    tableNumber := if p.tableNumber != "" then p.tableNumber else x.tableNumber
    specialRequests := if p.specialRequests.isSome then p.specialRequests else x.specialRequests }

/-- `ReservationQ.Update`'s guard: at least one field enters the `SET`. -/
def anyFieldSet (p : Reservation) : Bool :=
  p.guestName != "" || p.guestPhone != "" || p.guestEmail != "" ||
  !(p.date == zeroDate) || p.time != "" || decide (0 < p.guests) ||
  p.tableNumber != "" || p.specialRequests.isSome

/-- `ReservationQ.Update`: dynamic update of the non-empty fields of `p` on
the row with the given id. -/
def updateReservationQ (db : List Reservation) (id : Nat) (p : Reservation) :
    Except String (List Reservation) :=
  if !(anyFieldSet p) then .error "no fields to update"
  else if db.any (fun r => r.id == id) then
    .ok (db.map (fun x => if x.id == id then applyUpdateRow x p else x))
  else .error "reservation not found"

/-- `handleUpdateReservation`: load, authorize, patch, validate, write the
patched row, invalidate the reservation's own key and the owner's list key;
with no updated field the handler answers 200 without touching store or
cache. -/
def handleUpdateReservation (db : List Reservation) (userId : Nat)
    (isAdmin : Bool) (id : Nat) (req : UpdateReservationRequest)
    (storeOk cacheOk : Bool) : HandlerOutcome :=
  match getByID db id with
  | .error _ =>
    { status := 500, errMsg := some "Internal server error", details := []
    , db := db, events := [] }
  | .ok r0 =>
    if !isAdmin && r0.userId ≠ userId then
      { status := 403, errMsg := some "Forbidden", details := [], db := db, events := [] }
    else
      let ps := applyPatch r0 req
      if ps.errs ≠ [] then
        { status := 400, errMsg := some "Validation error", details := ps.errs
        , db := db, events := [] }
      else if !ps.hasUpdates then
        { status := 200, errMsg := none, details := [], db := db, events := [] }
      else
        match (if storeOk then updateReservationQ db id ps.r else .error "store unreachable") with
        | .error _ =>
          { status := 500, errMsg := some "Internal server error", details := []
          , db := db, events := [.storeWrite false] }
        | .ok db2 =>
          { status := 200, errMsg := none, details := [], db := db2
          , events := [.storeWrite true,
              .cacheInvalidate ("reservation:" ++ toString id) cacheOk,
              .cacheInvalidate ("reservations:user:" ++ toString ps.r.userId) cacheOk] }

/-- `handleDeleteReservation`: load, authorize, delete, invalidate the
reservation's own key and the owner's list key. -/
def handleDeleteReservation (db : List Reservation) (userId : Nat)
    (isAdmin : Bool) (id : Nat) (storeOk cacheOk : Bool) : HandlerOutcome :=
  match getByID db id with
  | .error _ =>
    { status := 500, errMsg := some "Internal server error", details := []
    , db := db, events := [] }
  | .ok r0 =>
    if !isAdmin && r0.userId ≠ userId then
      { status := 403, errMsg := some "Forbidden", details := [], db := db, events := [] }
    else
      match (if storeOk then deleteQ db id else .error "store unreachable") with
      | .error _ =>
        { status := 500, errMsg := some "Internal server error", details := []
        , db := db, events := [.storeWrite false] }
      | .ok db2 =>
        { status := 200, errMsg := none, details := [], db := db2
        , events := [.storeWrite true,
            .cacheInvalidate ("reservation:" ++ toString id) cacheOk,
            .cacheInvalidate ("reservations:user:" ++ toString r0.userId) cacheOk] }

/-- `TableQ.GetByID`: the table with the given id, or "table not found". -/
def getTableByID (tables : List Table) (id : Nat) : Except String Table :=
  match tables.find? (fun t => t.id == id) with
  | some t => .ok t
  | none => .error "table not found"

/-- `TableQ.UpdateAvailability`: set the flag on the row with the given id. -/
def updateAvailabilityQ (tables : List Table) (id : Nat) (isAvailable : Bool) :
    Except String (List Table) :=
  if tables.any (fun t => t.id == id) then
    .ok (tables.map (fun t => if t.id == id then { t with isAvailable := isAvailable } else t))
  else .error "table not found"

/-- Outcome of the table-availability handler. -/
structure TableHandlerOutcome where
  status : Nat
  errMsg : Option String
  tables : List Table
  events : List Event
deriving DecidableEq, Repr

/-- `handleUpdateTableAvailability`: load, write the flag, re-load, then
sweep the whole table cache namespace (the `tables:*` and `table:*` key
patterns) in one invalidation call whose error is only logged. -/
def handleUpdateTableAvailability (tables : List Table) (id : Nat)
    (isAvailable : Bool) (storeOk cacheOk : Bool) : TableHandlerOutcome :=
  match getTableByID tables id with
  | .error _ =>
    { status := 500, errMsg := some "Internal server error", tables := tables, events := [] }
  | .ok _ =>
    match (if storeOk then updateAvailabilityQ tables id isAvailable else .error "store unreachable") with
    | .error _ =>
      { status := 500, errMsg := some "Internal server error", tables := tables
      , events := [.storeWrite false] }
    | .ok tables2 =>
      match getTableByID tables2 id with
      | .error _ =>
        { status := 500, errMsg := some "Internal server error", tables := tables2
        , events := [.storeWrite true] }
      | .ok _ =>
        { status := 200, errMsg := none, tables := tables2
        , events := [.storeWrite true,
            .cacheInvalidate "tables:*" cacheOk, .cacheInvalidate "table:*" cacheOk] }

/-- Checks that every cache-invalidation event in the trace is preceded by a
successful store write (`seenOk` records whether one has run). -/
def invalidatesAfterWrite (seenOk : Bool) : List Event → Bool
  | [] => true
  | .storeWrite ok :: es => invalidatesAfterWrite (seenOk || ok) es
  | .cacheInvalidate _ _ :: es => seenOk && invalidatesAfterWrite seenOk es

/-- Is the event a cache invalidation? -/
def isInvalidateEvent : Event → Bool
  | .cacheInvalidate _ _ => true
  | .storeWrite _ => false

/-! ## Helper lemmas -/

theorem isActiveStatus_iff (s : String) :
    isActiveStatus s = true ↔ s = "pending" ∨ s = "confirmed" := by
  simp [isActiveStatus]

/-- A sample stored reservation used by the concrete scenarios. -/
def demoReservation : Reservation :=
  { id := 1, userId := 7, guestName := "Ann", guestPhone := "111"
  , guestEmail := "ann@mail.com", date := { year := 2025, month := 12, day := 25 }
  , time := "19:00", guests := 2, tableNumber := "T1", status := "pending"
  , specialRequests := none }

/-! ## C1: availability check -/

/-- C1: the availability check answers true exactly when no reservation with
that table number, date and time is pending or confirmed (cancelled and
completed rows never block), and after cancelling the only active
reservation on a slot the check for that slot answers true. -/
theorem checkTableAvailability_correct
    (db : List Reservation) (t : String) (d : Date) (ti : String) :
    (checkTableAvailability db t d ti = true ↔
      ∀ r ∈ db, r.tableNumber = t → r.date = d → r.time = ti →
        r.status ≠ "pending" ∧ r.status ≠ "confirmed") ∧
    (∀ (i : Nat) (db2 : List Reservation),
      updateStatusQ db i "cancelled" = .ok db2 →
      (∀ r ∈ db, r.tableNumber = t → r.date = d → r.time = ti →
        isActiveStatus r.status = true → r.id = i) →
      checkTableAvailability db2 t d ti = true) := by
  have hiff : ∀ (l : List Reservation),
      checkTableAvailability l t d ti = true ↔
        ∀ r ∈ l, r.tableNumber = t → r.date = d → r.time = ti →
          r.status ≠ "pending" ∧ r.status ≠ "confirmed" := by
    intro l
    simp only [checkTableAvailability, beq_iff_eq, List.length_eq_zero,
      List.filter_eq_nil_iff, Bool.and_eq_true, Bool.or_eq_true]
    exact forall₂_congr (fun r hr => by tauto)
  refine ⟨hiff db, ?_⟩
  intro i db2 hupd honly
  simp only [updateStatusQ] at hupd
  split at hupd
  · have hdb2 : db2 = db.map (fun r => if r.id == i then { r with status := "cancelled" } else r) := by
      cases hupd; rfl
    rw [hiff db2]
    intro r hr ht hd hti
    rw [hdb2] at hr
    obtain ⟨r0, hr0, hrr⟩ := List.mem_map.mp hr
    by_cases hid : r0.id == i
    · rw [if_pos hid] at hrr
      subst hrr
      exact ⟨by simp, by simp⟩
    · rw [if_neg hid] at hrr
      subst hrr
      constructor
      · intro hpend
        exact hid (by
          have := honly r0 hr0 ht hd hti ((isActiveStatus_iff _).mpr (Or.inl hpend))
          simp [this])
      · intro hconf
        exact hid (by
          have := honly r0 hr0 ht hd hti ((isActiveStatus_iff _).mpr (Or.inr hconf))
          simp [this])
  · cases hupd

/-- Concrete instance of `checkTableAvailability_correct`: the demo slot is
blocked while the reservation is pending, and cancelling it (the only active
reservation there) frees the exact slot. -/
theorem checkTableAvailability_correct_witness :
    checkTableAvailability
      [{ demoReservation with status := "cancelled" }] "T1"
      { year := 2025, month := 12, day := 25 } "19:00" = true :=
  (checkTableAvailability_correct [demoReservation] "T1"
    { year := 2025, month := 12, day := 25 } "19:00").2 1
    [{ demoReservation with status := "cancelled" }] rfl (by decide)

/-! ## C2: status transitions -/

/-- `getByID` answers `.ok r` exactly when `r` is the first row with that id. -/
theorem getByID_ok_iff (db : List Reservation) (id : Nat) (r : Reservation) :
    getByID db id = .ok r ↔ db.find? (fun x => x.id == id) = some r := by
  simp only [getByID]
  cases h : db.find? (fun x => x.id == id) <;> simp

/-- C2 counterexample: on a store holding one reservation in status
"completed", requesting status "pending" succeeds with 200 and the stored
status becomes "pending" — the operation does move a reservation out of
"completed", and backwards. -/
theorem updateStatusHandler_moves_out_of_completed :
    (handleUpdateReservationStatus
      [{ demoReservation with status := "completed" }] 1 "pending" true true).status = 200 ∧
    (handleUpdateReservationStatus
      [{ demoReservation with status := "completed" }] 1 "pending" true true).db.map
        (fun r => r.status) = ["pending"] :=
  ⟨rfl, rfl⟩

/-- C2 amended: the status-update operation checks only that the requested
status is one of pending, confirmed, cancelled, completed; on an existing
reservation it applies that status whatever the current status is, so no
transition direction is enforced and neither "completed" nor "cancelled" is
terminal. -/
theorem updateStatusHandler_sets_any_valid_status
    (db : List Reservation) (id : Nat) (s : String) (cacheOk : Bool)
    (r : Reservation) (hfound : getByID db id = .ok r)
    (hvalid : validStatusCheck s = true) :
    (handleUpdateReservationStatus db id s true cacheOk).status = 200 ∧
    getByID (handleUpdateReservationStatus db id s true cacheOk).db id =
      .ok { r with status := s } := by
  have hget : getByID db id = .ok r := hfound
  rw [getByID_ok_iff] at hfound
  have hid : (r.id == id) = true := by
    have h0 := List.find?_some hfound
    exact h0
  have hmem : r ∈ db := List.mem_of_find?_eq_some hfound
  have hany : db.any (fun x => x.id == id) = true :=
    List.any_eq_true.mpr ⟨r, hmem, hid⟩
  have hupd : updateStatusQ db id s =
      .ok (db.map (fun x => if x.id == id then { x with status := s } else x)) := by
    simp only [updateStatusQ, hany, if_true]
  have hfind2 : (db.map (fun x => if x.id == id then { x with status := s } else x)).find?
      (fun x => x.id == id) = some { r with status := s } := by
    have hcomp : ((fun x : Reservation => x.id == id) ∘
        (fun x => if x.id == id then { x with status := s } else x)) =
        (fun x : Reservation => x.id == id) := by
      funext x
      by_cases h : x.id = id
      · simp [h]
      · simp [h]
    rw [List.find?_map, hcomp, hfound]
    exact congrArg some (if_pos hid)
  have hget2 : getByID (db.map (fun x => if x.id == id then { x with status := s } else x)) id =
      .ok { r with status := s } := (getByID_ok_iff _ _ _).mpr hfind2
  have hnot : (!validStatusCheck s) = false := by rw [hvalid]; rfl
  have hred : handleUpdateReservationStatus db id s true cacheOk =
      { status := 200, errMsg := none, details := []
      , db := db.map (fun x => if x.id == id then { x with status := s } else x)
      , events := [.storeWrite true,
          .cacheInvalidate ("reservation:" ++ toString id) cacheOk,
          .cacheInvalidate ("reservations:user:" ++ toString r.userId) cacheOk] } := by
    simp only [handleUpdateReservationStatus, hget]
    simp only [hnot, Bool.false_eq_true, if_false, eq_self_iff_true, if_true]
    simp only [hupd, hget2]
  rw [hred]
  exact ⟨rfl, hget2⟩

/-- Concrete instance of `updateStatusHandler_sets_any_valid_status`: a
"cancelled" reservation is moved back to "confirmed". -/
theorem updateStatusHandler_sets_any_valid_status_witness :
    (handleUpdateReservationStatus
      [{ demoReservation with status := "cancelled" }] 1 "confirmed" true true).status = 200 ∧
    getByID (handleUpdateReservationStatus
      [{ demoReservation with status := "cancelled" }] 1 "confirmed" true true).db 1 =
      .ok { demoReservation with status := "confirmed" } :=
  updateStatusHandler_sets_any_valid_status
    [{ demoReservation with status := "cancelled" }] 1 "confirmed" true
    { demoReservation with status := "cancelled" } rfl (by decide)

/-! ## C3: month boundaries of the aggregation window -/

/-- `dateLE` decides the lexicographic order on (year, month, day). -/
theorem dateLE_iff (a b : Date) : dateLE a b = true ↔
    (a.year < b.year ∨ (a.year = b.year ∧
      (a.month < b.month ∨ (a.month = b.month ∧ a.day ≤ b.day)))) := by
  unfold dateLE
  by_cases h1 : a.year = b.year <;> by_cases h2 : a.month = b.month <;> simp [h1, h2]

/-- `dateLT` decides the strict lexicographic order on (year, month, day). -/
theorem dateLT_iff (a b : Date) : dateLT a b = true ↔
    (a.year < b.year ∨ (a.year = b.year ∧
      (a.month < b.month ∨ (a.month = b.month ∧ a.day < b.day)))) := by
  unfold dateLT
  by_cases h1 : a.year = b.year <;> by_cases h2 : a.month = b.month <;> simp [h1, h2]

/-- C3: the monthly aggregation counts exactly the reservations with
`month start ≤ date < next month start`: the last calendar day of any month
lies inside that month's window and outside the next month's window, the
reported total is the number of reservations satisfying the window
predicate, and concretely a reservation on the last day of a 28-, 29-, 30-
or 31-day month is counted by that month's detail query and leaves the next
month with no data. -/
theorem monthly_aggregation_month_boundary :
    (∀ y m, 1 ≤ m → m ≤ 12 →
      inMonthRange { year := y, month := m, day := 1 }
        { year := y, month := m, day := daysInMonth y m } = true ∧
      inMonthRange (addMonth { year := y, month := m, day := 1 })
        { year := y, month := m, day := daysInMonth y m } = false) ∧
    (∀ (res : List Reservation) (month : String) (out : DetailedMonthlyStats),
      getDetailedMonthlyStats res month = .ok out →
      out.totalReservations =
        res.countP (fun r => inMonthRange ((parseDate (month ++ "-01")).getD zeroDate) r.date)) ∧
    ((getDetailedMonthlyStats
        [{ demoReservation with date := { year := 2025, month := 2, day := 28 } }]
        "2025-02").toOption.map (fun st => st.totalReservations) = some 1 ∧
      getDetailedMonthlyStats
        [{ demoReservation with date := { year := 2025, month := 2, day := 28 } }]
        "2025-03" = .error "statistics for this month not found") ∧
    ((getDetailedMonthlyStats
        [{ demoReservation with date := { year := 2024, month := 2, day := 29 } }]
        "2024-02").toOption.map (fun st => st.totalReservations) = some 1 ∧
      getDetailedMonthlyStats
        [{ demoReservation with date := { year := 2024, month := 2, day := 29 } }]
        "2024-03" = .error "statistics for this month not found") ∧
    ((getDetailedMonthlyStats
        [{ demoReservation with date := { year := 2025, month := 4, day := 30 } }]
        "2025-04").toOption.map (fun st => st.totalReservations) = some 1 ∧
      getDetailedMonthlyStats
        [{ demoReservation with date := { year := 2025, month := 4, day := 30 } }]
        "2025-05" = .error "statistics for this month not found") ∧
    ((getDetailedMonthlyStats
        [{ demoReservation with date := { year := 2025, month := 1, day := 31 } }]
        "2025-01").toOption.map (fun st => st.totalReservations) = some 1 ∧
      getDetailedMonthlyStats
        [{ demoReservation with date := { year := 2025, month := 1, day := 31 } }]
        "2025-02" = .error "statistics for this month not found") := by
  refine ⟨?_, ?_, ⟨rfl, rfl⟩, ⟨rfl, rfl⟩, ⟨rfl, rfl⟩, ⟨rfl, rfl⟩⟩
  · intro y m h1 h2
    have hday : 1 ≤ daysInMonth y m := by
      unfold daysInMonth
      split
      · split <;> decide
      · split <;> decide
    by_cases hm : m = 12
    · subst hm
      refine ⟨?_, ?_⟩
      · simp only [inMonthRange, Bool.and_eq_true, dateLE_iff, dateLT_iff, addMonth]
        simp
        exact hday
      · simp only [inMonthRange, Bool.eq_false_iff, Ne, Bool.and_eq_true,
          dateLE_iff, dateLT_iff, addMonth]
        simp
    · refine ⟨?_, ?_⟩
      · simp only [inMonthRange, Bool.and_eq_true, dateLE_iff, dateLT_iff, addMonth]
        simp [hm]
        exact hday
      · simp only [inMonthRange, Bool.eq_false_iff, Ne, Bool.and_eq_true,
          dateLE_iff, dateLT_iff, addMonth]
        simp [hm]
  · intro res month out h
    rw [getDetailedMonthlyStats] at h
    split at h
    · simp at h
    · split at h
      · simp at h
      · next start heq =>
        dsimp only at h
        split at h
        · simp at h
        · cases h
          simp [heq, List.countP_eq_length_filter]

/-- Concrete instance of `monthly_aggregation_month_boundary`: 2025-02-28 is
inside February 2025's window and outside March 2025's. -/
theorem monthly_aggregation_month_boundary_witness :
    inMonthRange { year := 2025, month := 2, day := 1 }
      { year := 2025, month := 2, day := 28 } = true ∧
    inMonthRange (addMonth { year := 2025, month := 2, day := 1 })
      { year := 2025, month := 2, day := 28 } = false :=
  monthly_aggregation_month_boundary.1 2025 2 (by decide) (by decide)

/-! ## C4: date-only listing versus per-slot rule -/

/-- A sample administratively available table matching the demo reservation. -/
def demoTableA : Table :=
  { id := 1, number := "T1", capacity := 4, isAvailable := true, location := "main" }

/-- A second sample table with no reservations. -/
def demoTableB : Table :=
  { id := 2, number := "T2", capacity := 4, isAvailable := true, location := "main" }

/-- C4 counterexample: with a single pending reservation on T1 at
2025-12-25 19:00, the date-only listing and the per-slot listing at 19:00
return the same tables, so the date-only rule does not exclude strictly
more tables than the per-slot rule for every input — it is merely at least
as strict. -/
theorem getAvailable_dateOnly_not_strictly_stricter :
    getAvailable [demoTableA, demoTableB] [demoReservation]
      { date := some { year := 2025, month := 12, day := 25 }, time := none, guests := none } =
    getAvailable [demoTableA, demoTableB] [demoReservation]
      { date := some { year := 2025, month := 12, day := 25 }, time := some "19:00", guests := none } ∧
    ¬((getAvailable [demoTableA, demoTableB] [demoReservation]
        { date := some { year := 2025, month := 12, day := 25 }, time := none, guests := none }).length <
      (getAvailable [demoTableA, demoTableB] [demoReservation]
        { date := some { year := 2025, month := 12, day := 25 }, time := some "19:00", guests := none }).length) :=
  ⟨rfl, by decide⟩

/-- C4 amended: with only a date filter, `GetAvailable` excludes every table
having any pending or confirmed reservation on that date (at any time); its
result is therefore contained in the per-slot result for every single time
on that date — at least as many tables are excluded, not necessarily
strictly more. -/
theorem getAvailable_dateOnly_superset_exclusion
    (tables : List Table) (res : List Reservation) (d : Date) (ti : String)
    (g : Option Int) :
    (∀ t, t ∈ getAvailable tables res { date := some d, time := none, guests := g } →
      t ∈ getAvailable tables res { date := some d, time := some ti, guests := g }) ∧
    (∀ t, t ∈ tables →
      (∃ r ∈ res, r.tableNumber = t.number ∧ r.date = d ∧ isActiveStatus r.status = true) →
      t ∉ getAvailable tables res { date := some d, time := none, guests := g }) := by
  constructor
  · intro t ht
    rw [getAvailable, List.mem_filter] at ht ⊢
    obtain ⟨htm, hp⟩ := ht
    refine ⟨htm, ?_⟩
    simp only [Bool.and_eq_true] at hp ⊢
    obtain ⟨⟨hav, hg⟩, hcon⟩ := hp
    refine ⟨⟨hav, hg⟩, ?_⟩
    simp only [Bool.not_eq_true', List.any_eq_false] at hcon ⊢
    intro r hr
    have hdate := hcon r hr
    simp only [Bool.and_eq_true, not_and] at hdate ⊢
    intro h
    exact hdate h.1
  · intro t htm hex ht
    obtain ⟨r, hr, htab, hd, hact⟩ := hex
    rw [getAvailable, List.mem_filter] at ht
    obtain ⟨_, hp⟩ := ht
    simp only [Bool.and_eq_true] at hp
    obtain ⟨_, hcon⟩ := hp
    simp only [Bool.not_eq_true', List.any_eq_false] at hcon
    have := hcon r hr
    simp only [Bool.and_eq_true, not_and] at this
    exact absurd hact (this ⟨by simp [htab], by simp [hd]⟩)

/-- Concrete instance of `getAvailable_dateOnly_superset_exclusion`: T2,
listed by the date-only query, is also listed by the per-slot query. -/
theorem getAvailable_dateOnly_superset_exclusion_witness :
    demoTableB ∈ getAvailable [demoTableA, demoTableB] [demoReservation]
      { date := some { year := 2025, month := 12, day := 25 }, time := some "19:00", guests := none } :=
  (getAvailable_dateOnly_superset_exclusion [demoTableA, demoTableB] [demoReservation]
    { year := 2025, month := 12, day := 25 } "19:00" none).1 demoTableB (by decide)

/-! ## C5: popular tables and peak hours -/

/-- Membership in an `insertByCount` insertion. -/
theorem mem_insertByCount (p x : String × Nat) (l : List (String × Nat)) :
    x ∈ insertByCount p l ↔ x = p ∨ x ∈ l := by
  induction l with
  | nil => simp [insertByCount]
  | cons q qs ih =>
    by_cases hlt : q.2 < p.2
    · simp only [insertByCount, if_pos hlt, List.mem_cons]
    · simp only [insertByCount, if_neg hlt, List.mem_cons, ih]
      tauto

/-- `insertByCount` preserves the count-descending pairwise order. -/
theorem insertByCount_pairwise (p : String × Nat) (l : List (String × Nat))
    (h : l.Pairwise (fun a b => b.2 ≤ a.2)) :
    (insertByCount p l).Pairwise (fun a b => b.2 ≤ a.2) := by
  induction l with
  | nil => simp [insertByCount]
  | cons q qs ih =>
    rw [List.pairwise_cons] at h
    obtain ⟨hq, hqs⟩ := h
    by_cases hlt : q.2 < p.2
    · simp only [insertByCount, if_pos hlt]
      refine List.Pairwise.cons ?_ (List.Pairwise.cons hq hqs)
      intro x hx
      rcases List.mem_cons.mp hx with rfl | hx
      · exact le_of_lt hlt
      · exact le_trans (hq x hx) (le_of_lt hlt)
    · simp only [insertByCount, if_neg hlt]
      refine List.Pairwise.cons ?_ (ih hqs)
      intro x hx
      rcases (mem_insertByCount p x qs).mp hx with rfl | hx
      · omega
      · exact hq x hx

/-- The result of `sortByCountDesc` is count-descending. -/
theorem sortByCountDesc_pairwise (l : List (String × Nat)) :
    (sortByCountDesc l).Pairwise (fun a b => b.2 ≤ a.2) := by
  unfold sortByCountDesc
  induction l with
  | nil => simp
  | cons a as ih =>
    rw [List.foldr_cons]
    exact insertByCount_pairwise a _ ih

/-- Pre-filtering by a weaker predicate does not change a filter. -/
theorem filter_of_imp (p c : Reservation → Bool) (h : ∀ a, p a = true → c a = true) :
    ∀ l : List Reservation, (l.filter c).filter p = l.filter p := by
  intro l
  induction l with
  | nil => rfl
  | cons a as ih =>
    by_cases hc : c a = true
    · by_cases hp : p a = true <;> simp [List.filter_cons, hc, hp, ih]
    · have hp : p a = false := by
        cases hpa : p a
        · rfl
        · exact absurd (h a hpa) hc
      simp [List.filter_cons, hc, hp, ih]

/-- December 2025 sample history: three completed reservations on T1, one
completed on T2, one pending and one cancelled on T3. -/
def demoDecemberRes : List Reservation :=
  [ { demoReservation with id := 1, status := "completed", time := "19:00" },
    { demoReservation with id := 2, status := "completed", time := "18:00" },
    { demoReservation with id := 3, status := "completed", time := "19:00" },
    { demoReservation with id := 4, tableNumber := "T2", status := "completed", time := "19:00" },
    { demoReservation with id := 5, tableNumber := "T3", status := "pending" },
    { demoReservation with id := 6, tableNumber := "T3", status := "cancelled" } ]

/-- C5: popular tables and peak hours are computed from completed
reservations only (dropping the non-completed rows first changes nothing),
are ranked by descending count, are truncated to at most 10 entries, and on
the December sample (three completed on T1, one on T2) T1 ranks first with
count 3 — likewise 19:00 ranks first with count 3 among time slots. -/
theorem popular_peak_completed_sorted_top10 :
    (∀ (res : List Reservation) (start : Date),
      popularTables res start =
        popularTables (res.filter (fun r => r.status == "completed")) start ∧
      peakHours res start =
        peakHours (res.filter (fun r => r.status == "completed")) start) ∧
    (∀ (res : List Reservation) (start : Date),
      (popularTables res start).Pairwise (fun a b => b.2 ≤ a.2) ∧
      (peakHours res start).Pairwise (fun a b => b.2 ≤ a.2)) ∧
    (∀ (res : List Reservation) (start : Date),
      (popularTables res start).length ≤ 10 ∧ (peakHours res start).length ≤ 10) ∧
    (popularTables demoDecemberRes { year := 2025, month := 12, day := 1 } =
        [("T1", 3), ("T2", 1)] ∧
      peakHours demoDecemberRes { year := 2025, month := 12, day := 1 } =
        [("19:00", 3), ("18:00", 1)]) := by
  refine ⟨?_, ?_, ?_, rfl, rfl⟩
  · intro res start
    constructor
    · unfold popularTables
      rw [filter_of_imp (fun r => inMonthRange start r.date && r.status == "completed")
        (fun r => r.status == "completed")
        (fun a h => (Bool.and_eq_true _ _ |>.mp h).2) res]
    · unfold peakHours
      rw [filter_of_imp (fun r => inMonthRange start r.date && r.status == "completed")
        (fun r => r.status == "completed")
        (fun a h => (Bool.and_eq_true _ _ |>.mp h).2) res]
  · intro res start
    constructor
    · exact List.Pairwise.sublist (List.take_sublist 10 _) (sortByCountDesc_pairwise _)
    · exact List.Pairwise.sublist (List.take_sublist 10 _) (sortByCountDesc_pairwise _)
  · intro res start
    constructor
    · unfold popularTables
      rw [List.length_take]
      exact min_le_left _ _
    · unfold peakHours
      rw [List.length_take]
      exact min_le_left _ _

/-! ## C6: conflict rejection on create -/

/-- A well-formed booking request for the demo slot. -/
def demoCreateReq : CreateReservationRequest :=
  { guestName := "Bob", guestPhone := "222", guestEmail := "bob@mail.com"
  , date := "2025-12-25", time := "19:00", guests := 2, tableNumber := "T1"
  , specialRequests := none }

/-- The same request with an empty guest name, failing validation. -/
def demoInvalidReq : CreateReservationRequest :=
  { demoCreateReq with guestName := "" }

/-- C6 counterexample: booking the demo slot while a pending reservation
holds it is rejected with HTTP 400 and top-level message "Validation error"
— exactly the status and message of a plain validation failure (empty guest
name) — so the conflict is not surfaced distinctly from validation errors;
the field map does name `tableNumber`, nothing is stored and no cache
invalidation is issued. -/
theorem createReservation_conflict_same_shape_as_validation :
    (handleCreateReservation [demoReservation] 7 demoCreateReq 99 true true).status = 400 ∧
    (handleCreateReservation [demoReservation] 7 demoCreateReq 99 true true).errMsg =
      some "Validation error" ∧
    (handleCreateReservation [demoReservation] 7 demoCreateReq 99 true true).details =
      [("tableNumber", "Table not available at this time")] ∧
    (handleCreateReservation [demoReservation] 7 demoCreateReq 99 true true).db =
      [demoReservation] ∧
    (handleCreateReservation [demoReservation] 7 demoCreateReq 99 true true).events = [] ∧
    (handleCreateReservation [demoReservation] 7 demoInvalidReq 99 true true).status = 400 ∧
    (handleCreateReservation [demoReservation] 7 demoInvalidReq 99 true true).errMsg =
      some "Validation error" :=
  ⟨rfl, rfl, rfl, rfl, rfl, rfl, rfl⟩

/-- C6 amended: when a validation-clean booking request fails the
availability check, the handler rejects it with the field-scoped detail
naming `tableNumber`, stores nothing and issues no cache invalidation — but
it reuses the validation-error shape (status 400, message "Validation
error") instead of a distinct conflict shape. -/
theorem createReservation_conflict_behavior
    (db : List Reservation) (userId : Nat) (req : CreateReservationRequest)
    (newId : Nat) (storeOk cacheOk : Bool)
    (hval : createValidationErrors req = [])
    (hconf : checkTableAvailability db (trimSpace req.tableNumber)
      ((parseDate req.date).getD zeroDate) req.time = false) :
    handleCreateReservation db userId req newId storeOk cacheOk =
      { status := 400, errMsg := some "Validation error"
      , details := [("tableNumber", "Table not available at this time")]
      , db := db, events := [] } := by
  unfold handleCreateReservation
  simp [hval, hconf]

/-- Concrete instance of `createReservation_conflict_behavior` at the demo
conflict. -/
theorem createReservation_conflict_behavior_witness :
    handleCreateReservation [demoReservation] 7 demoCreateReq 99 true true =
      { status := 400, errMsg := some "Validation error"
      , details := [("tableNumber", "Table not available at this time")]
      , db := [demoReservation], events := [] } :=
  createReservation_conflict_behavior [demoReservation] 7 demoCreateReq 99 true true rfl rfl

/-! ## C7: month with no data -/

/-- C7: for a month with no reservation history the store does produce the
"statistics for this month not found" error, but the report handler maps
every store error — this one included — to HTTP 500 "Internal server
error", the same shape as a transient store failure; no 404 is produced. -/
theorem monthlyReport_no_data_returns_500 :
    getDetailedMonthlyStats [] "2025-12" =
      .error "statistics for this month not found" ∧
    handleGetMonthlyReport [] "2025-12" =
      { status := 500, errMsg := some "Internal server error", body := none } :=
  ⟨rfl, rfl⟩

/-! ## C8: cache errors never fail a mutation -/

/-- The caller-visible part of a reservation-handler outcome: everything
except the event trace (the cache layer's own outcome is not visible). -/
def responseOf (o : HandlerOutcome) :
    Nat × Option String × List (String × String) × List Reservation :=
  (o.status, o.errMsg, o.details, o.db)

/-- The caller-visible part of a table-handler outcome. -/
def tableResponseOf (o : TableHandlerOutcome) : Nat × Option String × List Table :=
  (o.status, o.errMsg, o.tables)

/-- C8: for each of the five mutating handlers, the caller-visible outcome
is the same whether the cache-invalidation call succeeds or errors; and a
validation-clean, conflict-free create whose store write succeeds answers
201 whatever the cache outcome. -/
theorem cache_error_never_fails_mutation :
    (∀ (db : List Reservation) (uid : Nat) (req : CreateReservationRequest)
        (nid : Nat) (storeOk : Bool),
      responseOf (handleCreateReservation db uid req nid storeOk true) =
        responseOf (handleCreateReservation db uid req nid storeOk false)) ∧
    (∀ (db : List Reservation) (id : Nat) (s : String) (storeOk : Bool),
      responseOf (handleUpdateReservationStatus db id s storeOk true) =
        responseOf (handleUpdateReservationStatus db id s storeOk false)) ∧
    (∀ (db : List Reservation) (uid : Nat) (adm : Bool) (id : Nat)
        (req : UpdateReservationRequest) (storeOk : Bool),
      responseOf (handleUpdateReservation db uid adm id req storeOk true) =
        responseOf (handleUpdateReservation db uid adm id req storeOk false)) ∧
    (∀ (db : List Reservation) (uid : Nat) (adm : Bool) (id : Nat) (storeOk : Bool),
      responseOf (handleDeleteReservation db uid adm id storeOk true) =
        responseOf (handleDeleteReservation db uid adm id storeOk false)) ∧
    (∀ (tables : List Table) (id : Nat) (av storeOk : Bool),
      tableResponseOf (handleUpdateTableAvailability tables id av storeOk true) =
        tableResponseOf (handleUpdateTableAvailability tables id av storeOk false)) ∧
    (∀ (db : List Reservation) (uid : Nat) (req : CreateReservationRequest)
        (nid : Nat) (cacheOk : Bool),
      createValidationErrors req = [] →
      checkTableAvailability db (trimSpace req.tableNumber)
        ((parseDate req.date).getD zeroDate) req.time = true →
      (handleCreateReservation db uid req nid true cacheOk).status = 201) := by
  refine ⟨?_, ?_, ?_, ?_, ?_, ?_⟩
  · intro db uid req nid storeOk
    by_cases h1 : createValidationErrors req = []
    · cases hc : checkTableAvailability db (trimSpace req.tableNumber)
          ((parseDate req.date).getD zeroDate) req.time with
      | false => simp [responseOf, handleCreateReservation, h1, hc]
      | true =>
        cases storeOk with
        | false => simp [responseOf, handleCreateReservation, h1, hc]
        | true => simp [responseOf, handleCreateReservation, h1, hc]
    · simp [responseOf, handleCreateReservation, h1]
  · intro db id s storeOk
    cases hg : getByID db id with
    | error e => simp [responseOf, handleUpdateReservationStatus, hg]
    | ok r =>
      cases hv : validStatusCheck s with
      | false => simp [responseOf, handleUpdateReservationStatus, hg, hv]
      | true =>
        cases storeOk with
        | false => simp [responseOf, handleUpdateReservationStatus, hg, hv]
        | true =>
          cases hu : updateStatusQ db id s with
          | error e => simp [responseOf, handleUpdateReservationStatus, hg, hv, hu]
          | ok db2 =>
            cases hg2 : getByID db2 id with
            | error e2 => simp [responseOf, handleUpdateReservationStatus, hg, hv, hu, hg2]
            | ok r2 => simp [responseOf, handleUpdateReservationStatus, hg, hv, hu, hg2]
  · intro db uid adm id req storeOk
    cases hg : getByID db id with
    | error e => simp [responseOf, handleUpdateReservation, hg]
    | ok r0 =>
      by_cases hz : (adm = false ∧ ¬r0.userId = uid)
      · simp [responseOf, handleUpdateReservation, hg, hz]
      · by_cases herr : (applyPatch r0 req).errs = []
        · cases hhu : (applyPatch r0 req).hasUpdates with
          | false => simp [responseOf, handleUpdateReservation, hg, hz, herr, hhu]
          | true =>
            cases storeOk with
            | false => simp [responseOf, handleUpdateReservation, hg, hz, herr, hhu]
            | true =>
              cases huq : updateReservationQ db id (applyPatch r0 req).r with
              | error e => simp [responseOf, handleUpdateReservation, hg, hz, herr, hhu, huq]
              | ok db2 => simp [responseOf, handleUpdateReservation, hg, hz, herr, hhu, huq]
        · simp [responseOf, handleUpdateReservation, hg, hz, herr]
  · intro db uid adm id storeOk
    cases hg : getByID db id with
    | error e => simp [responseOf, handleDeleteReservation, hg]
    | ok r0 =>
      by_cases hz : (adm = false ∧ ¬r0.userId = uid)
      · simp [responseOf, handleDeleteReservation, hg, hz]
      · cases storeOk with
        | false => simp [responseOf, handleDeleteReservation, hg, hz]
        | true =>
          cases hd : deleteQ db id with
          | error e => simp [responseOf, handleDeleteReservation, hg, hz, hd]
          | ok db2 => simp [responseOf, handleDeleteReservation, hg, hz, hd]
  · intro tables id av storeOk
    cases hg : getTableByID tables id with
    | error e => simp [tableResponseOf, handleUpdateTableAvailability, hg]
    | ok t0 =>
      cases storeOk with
      | false => simp [tableResponseOf, handleUpdateTableAvailability, hg]
      | true =>
        cases hu : updateAvailabilityQ tables id av with
        | error e => simp [tableResponseOf, handleUpdateTableAvailability, hg, hu]
        | ok tables2 =>
          cases hg2 : getTableByID tables2 id with
          | error e2 => simp [tableResponseOf, handleUpdateTableAvailability, hg, hu, hg2]
          | ok t2 => simp [tableResponseOf, handleUpdateTableAvailability, hg, hu, hg2]
  · intro db uid req nid cacheOk hval hfree
    unfold handleCreateReservation
    simp [hval, hfree]

/-- Concrete instance of `cache_error_never_fails_mutation`: a clean create
on an empty store answers 201 even when the invalidation call errors. -/
theorem cache_error_never_fails_mutation_witness :
    (handleCreateReservation [] 7 demoCreateReq 99 true false).status = 201 :=
  cache_error_never_fails_mutation.2.2.2.2.2 [] 7 demoCreateReq 99 false rfl rfl

/-! ## C9: invalidation strictly after the successful write -/

/-- C9: in every trace a mutating handler emits, each cache invalidation is
preceded by a successful store write; and when the store write fails no
invalidation is issued and the store state is left unchanged. -/
theorem invalidation_strictly_after_write :
    (∀ (db : List Reservation) (uid : Nat) (req : CreateReservationRequest)
        (nid : Nat) (storeOk cacheOk : Bool),
      invalidatesAfterWrite false
        (handleCreateReservation db uid req nid storeOk cacheOk).events = true) ∧
    (∀ (db : List Reservation) (id : Nat) (s : String) (storeOk cacheOk : Bool),
      invalidatesAfterWrite false
        (handleUpdateReservationStatus db id s storeOk cacheOk).events = true) ∧
    (∀ (db : List Reservation) (uid : Nat) (adm : Bool) (id : Nat)
        (req : UpdateReservationRequest) (storeOk cacheOk : Bool),
      invalidatesAfterWrite false
        (handleUpdateReservation db uid adm id req storeOk cacheOk).events = true) ∧
    (∀ (db : List Reservation) (uid : Nat) (adm : Bool) (id : Nat) (storeOk cacheOk : Bool),
      invalidatesAfterWrite false
        (handleDeleteReservation db uid adm id storeOk cacheOk).events = true) ∧
    (∀ (tables : List Table) (id : Nat) (av storeOk cacheOk : Bool),
      invalidatesAfterWrite false
        (handleUpdateTableAvailability tables id av storeOk cacheOk).events = true) ∧
    (∀ (db : List Reservation) (uid : Nat) (req : CreateReservationRequest)
        (nid : Nat) (cacheOk : Bool),
      (handleCreateReservation db uid req nid false cacheOk).events.filter
        isInvalidateEvent = [] ∧
      (handleCreateReservation db uid req nid false cacheOk).db = db) ∧
    (∀ (db : List Reservation) (id : Nat) (s : String) (cacheOk : Bool),
      (handleUpdateReservationStatus db id s false cacheOk).events.filter
        isInvalidateEvent = [] ∧
      (handleUpdateReservationStatus db id s false cacheOk).db = db) ∧
    (∀ (db : List Reservation) (uid : Nat) (adm : Bool) (id : Nat)
        (req : UpdateReservationRequest) (cacheOk : Bool),
      (handleUpdateReservation db uid adm id req false cacheOk).events.filter
        isInvalidateEvent = [] ∧
      (handleUpdateReservation db uid adm id req false cacheOk).db = db) ∧
    (∀ (db : List Reservation) (uid : Nat) (adm : Bool) (id : Nat) (cacheOk : Bool),
      (handleDeleteReservation db uid adm id false cacheOk).events.filter
        isInvalidateEvent = [] ∧
      (handleDeleteReservation db uid adm id false cacheOk).db = db) ∧
    (∀ (tables : List Table) (id : Nat) (av cacheOk : Bool),
      (handleUpdateTableAvailability tables id av false cacheOk).events.filter
        isInvalidateEvent = [] ∧
      (handleUpdateTableAvailability tables id av false cacheOk).tables = tables) := by
  refine ⟨?_, ?_, ?_, ?_, ?_, ?_, ?_, ?_, ?_, ?_⟩
  · intro db uid req nid storeOk cacheOk
    by_cases h1 : createValidationErrors req = []
    · cases hc : checkTableAvailability db (trimSpace req.tableNumber)
          ((parseDate req.date).getD zeroDate) req.time with
      | false => simp [invalidatesAfterWrite, handleCreateReservation, h1, hc]
      | true =>
        cases storeOk with
        | false => simp [invalidatesAfterWrite, handleCreateReservation, h1, hc]
        | true => simp [invalidatesAfterWrite, handleCreateReservation, h1, hc]
    · simp [invalidatesAfterWrite, handleCreateReservation, h1]
  · intro db id s storeOk cacheOk
    cases hg : getByID db id with
    | error e => simp [invalidatesAfterWrite, handleUpdateReservationStatus, hg]
    | ok r =>
      cases hv : validStatusCheck s with
      | false => simp [invalidatesAfterWrite, handleUpdateReservationStatus, hg, hv]
      | true =>
        cases storeOk with
        | false => simp [invalidatesAfterWrite, handleUpdateReservationStatus, hg, hv]
        | true =>
          cases hu : updateStatusQ db id s with
          | error e => simp [invalidatesAfterWrite, handleUpdateReservationStatus, hg, hv, hu]
          | ok db2 =>
            cases hg2 : getByID db2 id with
            | error e2 => simp [invalidatesAfterWrite, handleUpdateReservationStatus, hg, hv, hu, hg2]
            | ok r2 => simp [invalidatesAfterWrite, handleUpdateReservationStatus, hg, hv, hu, hg2]
  · intro db uid adm id req storeOk cacheOk
    cases hg : getByID db id with
    | error e => simp [invalidatesAfterWrite, handleUpdateReservation, hg]
    | ok r0 =>
      by_cases hz : (adm = false ∧ ¬r0.userId = uid)
      · simp [invalidatesAfterWrite, handleUpdateReservation, hg, hz]
      · by_cases herr : (applyPatch r0 req).errs = []
        · cases hhu : (applyPatch r0 req).hasUpdates with
          | false => simp [invalidatesAfterWrite, handleUpdateReservation, hg, hz, herr, hhu]
          | true =>
            cases storeOk with
            | false => simp [invalidatesAfterWrite, handleUpdateReservation, hg, hz, herr, hhu]
            | true =>
              cases huq : updateReservationQ db id (applyPatch r0 req).r with
              | error e => simp [invalidatesAfterWrite, handleUpdateReservation, hg, hz, herr, hhu, huq]
              | ok db2 => simp [invalidatesAfterWrite, handleUpdateReservation, hg, hz, herr, hhu, huq]
        · simp [invalidatesAfterWrite, handleUpdateReservation, hg, hz, herr]
  · intro db uid adm id storeOk cacheOk
    cases hg : getByID db id with
    | error e => simp [invalidatesAfterWrite, handleDeleteReservation, hg]
    | ok r0 =>
      by_cases hz : (adm = false ∧ ¬r0.userId = uid)
      · simp [invalidatesAfterWrite, handleDeleteReservation, hg, hz]
      · cases storeOk with
        | false => simp [invalidatesAfterWrite, handleDeleteReservation, hg, hz]
        | true =>
          cases hd : deleteQ db id with
          | error e => simp [invalidatesAfterWrite, handleDeleteReservation, hg, hz, hd]
          | ok db2 => simp [invalidatesAfterWrite, handleDeleteReservation, hg, hz, hd]
  · intro tables id av storeOk cacheOk
    cases hg : getTableByID tables id with
    | error e => simp [invalidatesAfterWrite, handleUpdateTableAvailability, hg]
    | ok t0 =>
      cases storeOk with
      | false => simp [invalidatesAfterWrite, handleUpdateTableAvailability, hg]
      | true =>
        cases hu : updateAvailabilityQ tables id av with
        | error e => simp [invalidatesAfterWrite, handleUpdateTableAvailability, hg, hu]
        | ok tables2 =>
          cases hg2 : getTableByID tables2 id with
          | error e2 => simp [invalidatesAfterWrite, handleUpdateTableAvailability, hg, hu, hg2]
          | ok t2 => simp [invalidatesAfterWrite, handleUpdateTableAvailability, hg, hu, hg2]
  · intro db uid req nid cacheOk
    by_cases h1 : createValidationErrors req = []
    · cases hc : checkTableAvailability db (trimSpace req.tableNumber)
          ((parseDate req.date).getD zeroDate) req.time with
      | false => simp [isInvalidateEvent, handleCreateReservation, h1, hc]
      | true => simp [isInvalidateEvent, handleCreateReservation, h1, hc]
    · simp [isInvalidateEvent, handleCreateReservation, h1]
  · intro db id s cacheOk
    cases hg : getByID db id with
    | error e => simp [isInvalidateEvent, handleUpdateReservationStatus, hg]
    | ok r =>
      cases hv : validStatusCheck s with
      | false => simp [isInvalidateEvent, handleUpdateReservationStatus, hg, hv]
      | true => simp [isInvalidateEvent, handleUpdateReservationStatus, hg, hv]
  · intro db uid adm id req cacheOk
    cases hg : getByID db id with
    | error e => simp [isInvalidateEvent, handleUpdateReservation, hg]
    | ok r0 =>
      by_cases hz : (adm = false ∧ ¬r0.userId = uid)
      · simp [isInvalidateEvent, handleUpdateReservation, hg, hz]
      · by_cases herr : (applyPatch r0 req).errs = []
        · cases hhu : (applyPatch r0 req).hasUpdates with
          | false => simp [isInvalidateEvent, handleUpdateReservation, hg, hz, herr, hhu]
          | true => simp [isInvalidateEvent, handleUpdateReservation, hg, hz, herr, hhu]
        · simp [isInvalidateEvent, handleUpdateReservation, hg, hz, herr]
  · intro db uid adm id cacheOk
    cases hg : getByID db id with
    | error e => simp [isInvalidateEvent, handleDeleteReservation, hg]
    | ok r0 =>
      by_cases hz : (adm = false ∧ ¬r0.userId = uid)
      · simp [isInvalidateEvent, handleDeleteReservation, hg, hz]
      · simp [isInvalidateEvent, handleDeleteReservation, hg, hz]
  · intro tables id av cacheOk
    cases hg : getTableByID tables id with
    | error e => simp [isInvalidateEvent, handleUpdateTableAvailability, hg]
    | ok t0 => simp [isInvalidateEvent, handleUpdateTableAvailability, hg]

/-! ## C10: time filter without a date -/

/-- C10: with a time but no date, `GetAvailable` ignores the time entirely —
the result is the one of the no-date-no-time filter over any reservation
list — and a table is listed exactly when it is administratively available
and satisfies the minimum-capacity filter; reservations are never consulted. -/
theorem listAvailable_time_without_date
    (tables : List Table) (res res2 : List Reservation) (ti : String) (g : Option Int) :
    getAvailable tables res { date := none, time := some ti, guests := g } =
      getAvailable tables res2 { date := none, time := none, guests := g } ∧
    (∀ t, t ∈ getAvailable tables res { date := none, time := some ti, guests := g } ↔
      (t ∈ tables ∧ t.isAvailable = true ∧ ∀ gg, g = some gg → gg ≤ t.capacity)) := by
  constructor
  · rfl
  · intro t
    rw [getAvailable, List.mem_filter]
    cases g with
    | none => simp
    | some gg => simp [Bool.and_eq_true]

/-- Concrete instance of `listAvailable_time_without_date`: T1 is listed for
a time-only query with a capacity bound it satisfies. -/
theorem listAvailable_time_without_date_witness :
    demoTableA ∈ getAvailable [demoTableA, demoTableB] [demoReservation]
      { date := none, time := some "19:00", guests := some 2 } :=
  ((listAvailable_time_without_date [demoTableA, demoTableB] [demoReservation] []
      "19:00" (some 2)).2 demoTableA).mpr
    ⟨by decide, rfl, fun gg h => by injection h with h2; rw [← h2]; decide⟩

end Booking
